import Mathlib

/-!
Shallow embedding of the analytics core of the market-research platform:
`backend/services/sentiment_analyzer.py` and `backend/services/trend_detector.py`.

Strings are modelled as `List Char` (`Str`), Python floats as `ℚ`, timestamps as
minutes since an epoch (`ℤ`); `datetime.fromisoformat` is an external library
function and is modelled as an arbitrary parameter `parse : Str → Option ℤ`
(`none` = the call raises), `datetime.utcnow()` as a parameter `now : ℤ` fixed
for one run.  Python dicts keyed by insertion order are modelled as association
lists with an order-preserving upsert.  The OpenAI call together with
`json.loads` is modelled as a parameter `resp : Except Str AIResponse`
(`Except.error` = any exception raised by the call or by parsing).
-/

abbrev Str := List Char

/-- Python `s.lower()` on the character list. -/
def lowerStr (s : Str) : Str := s.map Char.toLower

/-- Python truthiness of `s.strip()`: `True` iff the text is all whitespace. -/
def stripIsEmpty (s : Str) : Bool := s.all Char.isWhitespace

/-- Python `kw in text` (substring containment). -/
def substrMem (kw text : Str) : Bool := decide (kw <:+: text)

/-- A fetched document (`item` dict); `title`/`content`/`source_id` model
`item.get(k, '')`, `source` and `published_at` keep the distinction between an
absent key and a present value because the code treats them differently. -/
structure Doc where
  title : Str
  content : Str
  published_at : Option Str
  source : Option Str
  source_id : Str
deriving DecidableEq

/-- `f"{item.get('title', '')} {item.get('content', '')}".lower()`. -/
def doc_text (d : Doc) : Str := lowerStr (d.title ++ ' ' :: d.content)

inductive Sentiment
  | positive
  | negative
  | neutral
deriving DecidableEq

/-- `self.positive_keywords` from `SentimentAnalyzer.__init__`. -/
def positive_keywords : List Str :=
  ["bullish".data, "optimistic".data, "growth".data, "opportunity".data, "positive".data,
   "strong".data, "excellent".data, "promising".data, "upward".data, "gain".data,
   "profit".data, "success".data, "breakthrough".data, "innovation".data, "expansion".data,
   "momentum".data, "rally".data, "surge".data, "boom".data, "thriving".data, "robust".data]

/-- `self.negative_keywords` from `SentimentAnalyzer.__init__`. -/
def negative_keywords : List Str :=
  ["bearish".data, "pessimistic".data, "decline".data, "risk".data, "negative".data,
   "weak".data, "poor".data, "concerning".data, "downward".data, "loss".data,
   "failure".data, "crash".data, "volatility".data, "uncertainty".data, "recession".data,
   "downturn".data, "plunge".data, "collapse".data, "struggling".data, "crisis".data]

/-- `self.neutral_keywords` from `SentimentAnalyzer.__init__`. -/
def neutral_keywords : List Str :=
  ["stable".data, "steady".data, "unchanged".data, "flat".data, "sideways".data,
   "consolidation".data, "mixed".data, "balanced".data, "moderate".data, "cautious".data,
   "watchful".data]

/-- `sum(1 for keyword in kws if keyword in text)`. -/
def count_keywords (kws : List Str) (text : Str) : Nat :=
  (kws.filter (fun k => substrMem k text)).length

/-- The per-document classification of `_keyword_based_sentiment_analysis`
(lines 171-184): strict-majority keyword count picks the label, everything
else is neutral; confidence `min(0.9, 0.5 + count*0.1)`, or `0.6` for neutral. -/
def doc_sentiment (text : Str) : Sentiment × ℚ :=
  let p := count_keywords positive_keywords text
  let n := count_keywords negative_keywords text
  let m := count_keywords neutral_keywords text
  if p > n ∧ p > m then (Sentiment.positive, min (9/10) (1/2 + (p : ℚ) * (1/10)))
  else if n > p ∧ n > m then (Sentiment.negative, min (9/10) (1/2 + (n : ℚ) * (1/10)))
  else (Sentiment.neutral, 3/5)

/-- One entry of `sentiment_breakdown`; the keyword-path entries carry the two
keyword counts, the AI-path entries do not (hence `Option`). -/
structure BreakdownEntry where
  source : Str
  sentiment : Sentiment
  confidence : ℚ
  text_preview : Str
  pos_kw_count : Option Nat
  neg_kw_count : Option Nat
deriving DecidableEq

/-- Result dict of `analyze_sentiment` and its helpers. -/
structure SentimentResult where
  overall : Sentiment
  positive : ℚ
  negative : ℚ
  neutral : ℚ
  confidence : ℚ
  sample_positive : List Str
  sample_negative : List Str
  sample_neutral : List Str
  sentiment_breakdown : List BreakdownEntry
  analysis_method : Option Str
deriving DecidableEq

/-- Accumulator of the document loop in `_keyword_based_sentiment_analysis`. -/
structure KwState where
  pos_count : Nat
  neg_count : Nat
  neu_count : Nat
  breakdown : List BreakdownEntry
  sample_positive : List Str
  sample_negative : List Str
  sample_neutral : List Str
deriving DecidableEq

/-- `if len(sample_texts[sentiment]) < 3: sample_texts[sentiment].append(text[:200])`. -/
def addSample (samples : List Str) (text : Str) : List Str :=
  if samples.length < 3 then samples ++ [text.take 200] else samples

/-- One iteration of the document loop of `_keyword_based_sentiment_analysis`
(lines 164-200): skip blank texts, classify, count, record breakdown + sample. -/
def kw_step (st : KwState) (d : Doc) : KwState :=
  let text := doc_text d
  if stripIsEmpty text then st
  else
    let p := count_keywords positive_keywords text
    let n := count_keywords negative_keywords text
    let sc := doc_sentiment text
    let entry : BreakdownEntry :=
      ⟨(d.source.getD "unknown".data), sc.1, sc.2, text.take 100 ++ "...".data, some p, some n⟩
    match sc.1 with
    | Sentiment.positive =>
        { st with pos_count := st.pos_count + 1,
                  breakdown := st.breakdown ++ [entry],
                  sample_positive := addSample st.sample_positive text }
    | Sentiment.negative =>
        { st with neg_count := st.neg_count + 1,
                  breakdown := st.breakdown ++ [entry],
                  sample_negative := addSample st.sample_negative text }
    | Sentiment.neutral =>
        { st with neu_count := st.neu_count + 1,
                  breakdown := st.breakdown ++ [entry],
                  sample_neutral := addSample st.sample_neutral text }

/-- `_keyword_based_sentiment_analysis` (lines 157-242). -/
def keyword_based_sentiment_analysis (data : List Doc) : SentimentResult :=
  let st := data.foldl kw_step ⟨0, 0, 0, [], [], [], []⟩
  let total := st.pos_count + st.neg_count + st.neu_count
  if total = 0 then
    { overall := Sentiment.neutral, positive := 0, negative := 0, neutral := 1,
      confidence := 1/2,
      sample_positive := st.sample_positive, sample_negative := st.sample_negative,
      sample_neutral := st.sample_neutral,
      sentiment_breakdown := st.breakdown,
      analysis_method := some "keyword_based".data }
  else
    let pr : ℚ := (st.pos_count : ℚ) / (total : ℚ)
    let nr : ℚ := (st.neg_count : ℚ) / (total : ℚ)
    let ur : ℚ := (st.neu_count : ℚ) / (total : ℚ)
    let overall :=
      if pr > nr ∧ pr > ur then Sentiment.positive
      else if nr > pr ∧ nr > ur then Sentiment.negative
      else Sentiment.neutral
    let mr := max pr (max nr ur)
    { overall := overall, positive := pr, negative := nr, neutral := ur,
      confidence := min (9/10) (1/2 + mr * (2/5)),
      sample_positive := st.sample_positive, sample_negative := st.sample_negative,
      sample_neutral := st.sample_neutral,
      sentiment_breakdown := st.breakdown,
      analysis_method := some "keyword_based".data }

/-- One `text_samples` element of `_ai_sentiment_analysis` (lines 63-71). -/
structure AISample where
  sid : Str
  text : Str
  source : Str
deriving DecidableEq

/-- `text_samples` of `_ai_sentiment_analysis`: first 15 documents whose
concatenated (not lower-cased) title+content is non-blank, text cut to 500. -/
def text_samples (data : List Doc) : List AISample :=
  (data.take 15).filterMap (fun d =>
    let text := d.title ++ ' ' :: d.content
    if stripIsEmpty text then none
    else some ⟨d.source_id, text.take 500, d.source.getD []⟩)

/-- The parsed classifier JSON after the `.get` defaulting the code applies:
`overall_sentiment` / `sentiment_scores.{positive,negative,neutral}` /
`confidence` / `individual_sentiments` (each a sentiment + confidence).
The values are whatever the external model returned. -/
structure AIResponse where
  overall_sentiment : Sentiment
  score_positive : ℚ
  score_negative : ℚ
  score_neutral : ℚ
  confidence : ℚ
  individual_sentiments : List (Sentiment × ℚ)
deriving DecidableEq

/-- One iteration of the `individual_sentiments` loop (lines 124-138); the
`i < len(text_samples)` guard is realised by zipping with `text_samples`. -/
def ai_fold (acc : List BreakdownEntry × (List Str × List Str × List Str))
    (p : (Sentiment × ℚ) × AISample) :
    List BreakdownEntry × (List Str × List Str × List Str) :=
  let sentiment := p.1.1
  let conf := p.1.2
  let ts := p.2
  let entry : BreakdownEntry :=
    ⟨ts.source, sentiment, conf, ts.text.take 100 ++ "...".data, none, none⟩
  let samples :=
    match sentiment with
    | Sentiment.positive => (addSample acc.2.1 ts.text, acc.2.2.1, acc.2.2.2)
    | Sentiment.negative => (acc.2.1, addSample acc.2.2.1 ts.text, acc.2.2.2)
    | Sentiment.neutral => (acc.2.1, acc.2.2.1, addSample acc.2.2.2 ts.text)
  (acc.1 ++ [entry], samples)

/-- `_ai_sentiment_analysis` (lines 59-155): empty sample list or any failure
of the OpenAI call / JSON parse falls back to the keyword path for the whole
corpus, otherwise the corpus-level numbers are copied from the model response. -/
def ai_sentiment_analysis (data : List Doc) (resp : Except Str AIResponse) :
    SentimentResult :=
  let samples := text_samples data
  if samples.isEmpty then keyword_based_sentiment_analysis data
  else
    match resp with
    | Except.error _ => keyword_based_sentiment_analysis data
    | Except.ok r =>
        let folded := (r.individual_sentiments.zip samples).foldl ai_fold ([], ([], [], []))
        { overall := r.overall_sentiment,
          positive := r.score_positive, negative := r.score_negative,
          neutral := r.score_neutral, confidence := r.confidence,
          sample_positive := folded.2.1, sample_negative := folded.2.2.1,
          sample_neutral := folded.2.2.2,
          sentiment_breakdown := folded.1,
          analysis_method := some "ai_powered".data }

/-- The empty-corpus result of `analyze_sentiment` (lines 37-46). -/
def empty_sentiment_result : SentimentResult :=
  { overall := Sentiment.neutral, positive := 0, negative := 0, neutral := 1,
    confidence := 0,
    sample_positive := [], sample_negative := [], sample_neutral := [],
    sentiment_breakdown := [], analysis_method := none }

/-- `analyze_sentiment` (lines 34-57).  `api_key_configured` models
`self.openai_api_key` truthiness; `resp` models the outcome of the OpenAI
call + JSON parse (its exceptions are caught, in the source, both by the
inner `try` of `_ai_sentiment_analysis` and by the outer `try`, and both
handlers fall back to `_keyword_based_sentiment_analysis(data)`). -/
def analyze_sentiment (api_key_configured : Bool) (resp : Except Str AIResponse)
    (data : List Doc) : SentimentResult :=
  if data.isEmpty then empty_sentiment_result
  else if api_key_configured && data.length ≤ 20 then ai_sentiment_analysis data resp
  else keyword_based_sentiment_analysis data

/-! ## Trend detector (`trend_detector.py`) -/

/-- `self.stop_words` from `TrendDetector.__init__`. -/
def stop_words : List Str :=
  ["the".data, "a".data, "an".data, "and".data, "or".data, "but".data, "in".data,
   "on".data, "at".data, "to".data, "for".data, "of".data, "with".data,
   "by".data, "is".data, "are".data, "was".data, "were".data, "be".data, "been".data,
   "being".data, "have".data, "has".data, "had".data,
   "do".data, "does".data, "did".data, "will".data, "would".data, "could".data,
   "should".data, "may".data, "might".data, "must".data,
   "this".data, "that".data, "these".data, "those".data, "i".data, "you".data,
   "he".data, "she".data, "it".data, "we".data, "they".data,
   "me".data, "him".data, "her".data, "us".data, "them".data, "my".data, "your".data,
   "his".data, "its".data, "our".data, "their".data]

/-- `self.trend_indicators['growth']`. -/
def growth_indicators : List Str :=
  ["growth".data, "expansion".data, "increase".data, "rising".data, "surge".data,
   "boom".data, "rally".data]

/-- `self.trend_indicators['decline']`. -/
def decline_indicators : List Str :=
  ["decline".data, "decrease".data, "falling".data, "drop".data, "crash".data,
   "plunge".data, "downturn".data]

/-- `self.trend_indicators['volatility']`. -/
def volatility_indicators : List Str :=
  ["volatile".data, "fluctuation".data, "uncertainty".data, "unstable".data, "erratic".data]

/-- `self.trend_indicators['innovation']`. -/
def innovation_indicators : List Str :=
  ["innovation".data, "breakthrough".data, "technology".data, "disruption".data,
   "advancement".data]

/-- `self.trend_indicators['regulation']`. -/
def regulation_indicators : List Str :=
  ["regulation".data, "policy".data, "government".data, "compliance".data, "legal".data]

/-- `self.trend_indicators['competition']`. -/
def competition_indicators : List Str :=
  ["competition".data, "competitor".data, "market share".data, "rivalry".data]

/-- The whole `self.trend_indicators` dict, in insertion order. -/
def trend_indicator_table : List (Str × List Str) :=
  [("growth".data, growth_indicators), ("decline".data, decline_indicators),
   ("volatility".data, volatility_indicators), ("innovation".data, innovation_indicators),
   ("regulation".data, regulation_indicators), ("competition".data, competition_indicators)]

/-- Fuel-indexed scan for `text.count(pat)`: a match consumes the whole pattern
(non-overlapping count), otherwise the scan advances one character. -/
def countOccAux (pat : Str) : Nat → Str → Nat
  | 0, _ => 0
  | _, [] => 0
  | fuel + 1, c :: rest =>
      if pat.isPrefixOf (c :: rest) then
        1 + countOccAux pat fuel (rest.drop (pat.length - 1))
      else countOccAux pat fuel rest

/-- Python `text.count(pat)`: number of non-overlapping occurrences
(`len(text)+1` for the empty pattern, as in Python). -/
def countOcc (pat text : Str) : Nat :=
  if pat = [] then text.length + 1 else countOccAux pat text.length text

/-- `sum(text.count(i) for i in inds)`. -/
def indicator_count (inds : List Str) (text : Str) : Nat :=
  (inds.map (fun i => countOcc i text)).sum

/-- Total growth-indicator occurrences over the corpus
(`_analyze_trend_direction`, lines 195-203). -/
def growth_sum (data : List Doc) : Nat :=
  (data.map (fun d => indicator_count growth_indicators (doc_text d))).sum

/-- Total decline-indicator occurrences over the corpus
(`_analyze_trend_direction`, lines 195-207). -/
def decline_sum (data : List Doc) : Nat :=
  (data.map (fun d => indicator_count decline_indicators (doc_text d))).sum

inductive Direction
  | rising
  | declining
  | stable
deriving DecidableEq

/-- `_analyze_trend_direction` (lines 190-229).  The `keywords_over_time`
parameter is accepted but unused, exactly as in the source. -/
def analyze_trend_direction (data : List Doc)
    (kot : List (Str × List (ℤ × Nat))) : Direction × ℚ :=
  let g := growth_sum data
  let d := decline_sum data
  if g + d = 0 then (Direction.stable, 1/2)
  else
    let growth_ratio : ℚ := (g : ℚ) / ((g : ℚ) + (d : ℚ))
    let decline_ratio : ℚ := (d : ℚ) / ((g : ℚ) + (d : ℚ))
    if growth_ratio > 3/5 then
      (Direction.rising, min (9/10) (1/2 + (growth_ratio - 1/2)))
    else if decline_ratio > 3/5 then
      (Direction.declining, min (9/10) (1/2 + (decline_ratio - 1/2)))
    else (Direction.stable, 1/2)

/-- `pub_date.replace(minute=0, second=0, microsecond=0)` with time in
minutes: truncate to the start of the hour. -/
def truncHour (t : ℤ) : ℤ := t - t % 60

/-- Bucket key for one document (`_extract_keywords_over_time`, lines 91-102):
an absent or empty `published_at` fails the `if` (no exception, no bucket);
a present, non-empty but unparseable one raises inside the `try`, and the
`except` handler buckets the document at `now` truncated to the hour. -/
def bucket_key (parse : Str → Option ℤ) (now : ℤ) (d : Doc) : Option ℤ :=
  match d.published_at with
  | none => none
  | some s =>
      if s = [] then none
      else
        match parse s with
        | some t => some (truncHour t)
        | none => some (truncHour now)

/-- Append `d` to the bucket `k` of an insertion-ordered association list
(Python `defaultdict(list)` access followed by `append`). -/
def bucket_upsert (k : ℤ) (d : Doc) :
    List (ℤ × List Doc) → List (ℤ × List Doc)
  | [] => [(k, [d])]
  | (k', ds) :: rest =>
      if k' = k then (k', ds ++ [d]) :: rest else (k', ds) :: bucket_upsert k d rest

/-- The `time_periods` dict of `_extract_keywords_over_time` (lines 89-102). -/
def time_buckets (parse : Str → Option ℤ) (now : ℤ) (data : List Doc) :
    List (ℤ × List Doc) :=
  data.foldl (fun acc d =>
    match bucket_key parse now d with
    | none => acc
    | some k => bucket_upsert k d acc) []

/-- Keep alphabetic characters, map whitespace to itself, everything else to a
space: `re.sub(r'[^a-zA-Z\s]', ' ', text)` on the already lower-cased text. -/
def cleanChar (c : Char) : Char :=
  if ('a' ≤ c ∧ c ≤ 'z') ∨ ('A' ≤ c ∧ c ≤ 'Z') ∨ c.isWhitespace then c else ' '

/-- Python `str.split()` (split on whitespace runs, no empty tokens). -/
def splitWsAux : Str → Str → List Str
  | [], cur => if cur = [] then [] else [cur.reverse]
  | c :: rest, cur =>
      if c.isWhitespace then
        if cur = [] then splitWsAux rest [] else cur.reverse :: splitWsAux rest []
      else splitWsAux rest (c :: cur)

def splitWs (s : Str) : List Str := splitWsAux s []

/-- First occurrences of each distinct word, in order (the key order of a
Python `Counter` built from the word list); `seen` accumulates emitted words. -/
def firstOccAux : List Str → List Str → List Str
  | [], _ => []
  | w :: ws, seen =>
      if w ∈ seen then firstOccAux ws seen else w :: firstOccAux ws (w :: seen)

def firstOccurrences (ws : List Str) : List Str := firstOccAux ws []

/-- `Counter(keywords)` as an insertion-ordered association list. -/
def counterOf (ws : List Str) : List (Str × Nat) :=
  (firstOccurrences ws).map (fun w => (w, ws.count w))

/-- Stable insert for a descending sort by count (`Counter.most_common` keeps
insertion order among equal counts). -/
def insertDescByCount (x : Str × Nat) : List (Str × Nat) → List (Str × Nat)
  | [] => [x]
  | y :: ys => if x.2 ≤ y.2 then y :: insertDescByCount x ys else x :: y :: ys

/-- `Counter.most_common` (descending by count, stable). -/
def mostCommon (l : List (Str × Nat)) : List (Str × Nat) :=
  l.foldl (fun acc x => insertDescByCount x acc) []

/-- `_extract_keywords_from_texts` (lines 113-134): concatenate
`" {title} {content}"` per document, lower-case, strip non-alphabetic
characters, tokenize, drop short words and stop words, count, keep top 50. -/
def extract_keywords_from_texts (data : List Doc) : List (Str × Nat) :=
  let all_text := data.foldl (fun acc d => acc ++ ' ' :: d.title ++ ' ' :: d.content) []
  let text := (lowerStr all_text).map cleanChar
  let words := splitWs text
  let keywords := words.filter (fun w => 3 < w.length ∧ ¬ w ∈ stop_words)
  (mostCommon (counterOf keywords)).take 50

/-- Append one `(time, count)` point to the timeline of `kw`
(`keywords_timeline[keyword].append(...)` on a `defaultdict(list)`). -/
def timeline_upsert (kw : Str) (pt : ℤ × Nat) :
    List (Str × List (ℤ × Nat)) → List (Str × List (ℤ × Nat))
  | [] => [(kw, [pt])]
  | (k', tl) :: rest =>
      if k' = kw then (k', tl ++ [pt]) :: rest else (k', tl) :: timeline_upsert kw pt rest

/-- `_extract_keywords_over_time` (lines 83-111). -/
def extract_keywords_over_time (parse : Str → Option ℤ) (now : ℤ)
    (data : List Doc) : List (Str × List (ℤ × Nat)) :=
  (time_buckets parse now data).foldl (fun acc b =>
    (extract_keywords_from_texts b.2).foldl (fun acc' p =>
      timeline_upsert p.1 (b.1, p.2) acc') acc) []

/-- Stable insertion (after equal keys) for the ascending time sort
`timeline.sort(key=lambda x: x[0])`. -/
def insertByTime (x : ℤ × Nat) : List (ℤ × Nat) → List (ℤ × Nat)
  | [] => [x]
  | y :: ys => if y.1 ≤ x.1 then y :: insertByTime x ys else x :: y :: ys

def timelineSort (tl : List (ℤ × Nat)) : List (ℤ × Nat) :=
  tl.foldl (fun acc x => insertByTime x acc) []

/-- The flag test of `_detect_emerging_topics` (lines 141-158) for one
timeline: at least 2 points, then compare the mean of the last 3 points
against the mean of the first 3 after sorting by time. -/
def emerging_cond (tl : List (ℤ × Nat)) : Bool :=
  if tl.length < 2 then false
  else
    let stl := timelineSort tl
    let recent := (stl.drop (stl.length - 3)).map Prod.snd
    let earlier := (stl.take 3).map Prod.snd
    if 0 < recent.length ∧ 0 < earlier.length then
      let recent_avg : ℚ := (recent.sum : ℚ) / (recent.length : ℚ)
      let earlier_avg : ℚ := (earlier.sum : ℚ) / (earlier.length : ℚ)
      decide (recent_avg > earlier_avg * (3/2) ∧ recent_avg ≥ 2)
    else false

/-- The flag test of `_detect_declining_topics` (lines 168-185). -/
def declining_cond (tl : List (ℤ × Nat)) : Bool :=
  if tl.length < 2 then false
  else
    let stl := timelineSort tl
    let recent := (stl.drop (stl.length - 3)).map Prod.snd
    let earlier := (stl.take 3).map Prod.snd
    if 0 < recent.length ∧ 0 < earlier.length then
      let recent_avg : ℚ := (recent.sum : ℚ) / (recent.length : ℚ)
      let earlier_avg : ℚ := (earlier.sum : ℚ) / (earlier.length : ℚ)
      decide (earlier_avg > recent_avg * (3/2) ∧ earlier_avg ≥ 3)
    else false

/-- `_detect_emerging_topics` (lines 136-161). -/
def detect_emerging_topics (kot : List (Str × List (ℤ × Nat))) : List Str :=
  ((kot.filter (fun p => emerging_cond p.2)).map Prod.fst).take 10

/-- `_detect_declining_topics` (lines 163-188). -/
def detect_declining_topics (kot : List (Str × List (ℤ × Nat))) : List Str :=
  ((kot.filter (fun p => declining_cond p.2)).map Prod.fst).take 10

/-- `_identify_trend_indicators` (lines 231-243). -/
def identify_trend_indicators (data : List Doc) : List (Str × Nat) :=
  trend_indicator_table.map (fun cat =>
    (cat.1, (data.map (fun d => indicator_count cat.2 (doc_text d))).sum))

/-- The dates the trend detector manages to parse: key present, truthy, and
`datetime.fromisoformat` succeeds (`_get_time_span_hours`, lines 280-287). -/
def parsed_dates (parse : Str → Option ℤ) (data : List Doc) : List ℤ :=
  data.filterMap (fun d =>
    match d.published_at with
    | none => none
    | some s => if s = [] then none else parse s)

def listMinZ : List ℤ → ℤ
  | [] => 0
  | x :: xs => xs.foldl min x

def listMaxZ : List ℤ → ℤ
  | [] => 0
  | x :: xs => xs.foldl max x

/-- `_get_time_span_hours` (lines 277-294), minutes → hours. -/
def time_span_hours (parse : Str → Option ℤ) (data : List Doc) : ℚ :=
  let ds := parsed_dates parse data
  if ds.length < 2 then 1
  else ((listMaxZ ds - listMinZ ds : ℤ) : ℚ) / 60

def monoNondec : List Nat → Bool
  | [] => true
  | [_] => true
  | a :: b :: r => a ≤ b && monoNondec (b :: r)

def monoNoninc : List Nat → Bool
  | [] => true
  | [_] => true
  | a :: b :: r => b ≤ a && monoNoninc (b :: r)

def listMaxN (l : List Nat) : Nat := l.foldl max 0

def listMinN : List Nat → Nat
  | [] => 0
  | x :: xs => xs.foldl min x

/-- The per-keyword consistency test of `_calculate_trend_consistency`
(lines 310-320): monotonic non-decreasing, non-increasing, or range ≤ 1. -/
def consistency_cond (tl : List (ℤ × Nat)) : Bool :=
  let counts := (timelineSort tl).map Prod.snd
  monoNondec counts || monoNoninc counts || (listMaxN counts - listMinN counts ≤ 1)

/-- `_calculate_trend_consistency` (lines 296-326). -/
def trend_consistency (kot : List (Str × List (ℤ × Nat))) : ℚ :=
  if kot = [] then 1/2
  else
    let eligible := kot.filter (fun p => 3 ≤ p.2.length)
    if eligible.length = 0 then 1/2
    else ((eligible.filter (fun p => consistency_cond p.2)).length : ℚ) /
      (eligible.length : ℚ)

/-- The completeness test of `_calculate_data_quality_score` (lines 336-345):
at least 3 of title/content/published_at/source non-blank. -/
def doc_complete (d : Doc) : Bool :=
  let flags : List Bool :=
    [¬ stripIsEmpty d.title, ¬ stripIsEmpty d.content,
     ¬ stripIsEmpty ((d.published_at).getD []), ¬ stripIsEmpty (d.source.getD [])]
  3 ≤ (flags.filter id).length

/-- `_calculate_data_quality_score` (lines 328-347). -/
def data_quality_score (data : List Doc) : ℚ :=
  if data = [] then 0
  else ((data.filter doc_complete).length : ℚ) / (data.length : ℚ)

/-- Python `round(x, 2)` (modelled with round-half-up; the claims never hinge
on the tie-breaking rule). -/
def round2 (q : ℚ) : ℚ := ((round (q * 100) : ℤ) : ℚ) / 100

/-- `_calculate_trend_confidence` (lines 245-275). -/
def calculate_trend_confidence (parse : Str → Option ℤ) (data : List Doc)
    (kot : List (Str × List (ℤ × Nat))) : ℚ :=
  let data_amount_score : ℚ := min 1 ((data.length : ℚ) / 50)
  let time_span_score : ℚ := min 1 (time_span_hours parse data / 168)
  let consistency_score := trend_consistency kot
  let quality_score := data_quality_score data
  round2 (data_amount_score * (3/10) + time_span_score * (1/5) +
    consistency_score * (3/10) + quality_score * (1/5))

inductive AnalysisPeriod
  | unknown
  | span (start stop : ℤ)
deriving DecidableEq

/-- `_get_analysis_period` (lines 349-373), keeping the earliest/latest
parseable timestamps (the human-readable formatting is elided). -/
def get_analysis_period (parse : Str → Option ℤ) (data : List Doc) :
    AnalysisPeriod :=
  let ds := parsed_dates parse data
  if ds = [] then AnalysisPeriod.unknown
  else AnalysisPeriod.span (listMinZ ds) (listMaxZ ds)

/-- Result dict of `detect_trends`; `analysis_period`/`data_points` are absent
from the empty-corpus and error dicts (hence `Option`), `error` is present
only in the error dict. -/
structure TrendResult where
  direction : Direction
  strength : ℚ
  emerging_topics : List Str
  declining_topics : List Str
  trend_indicators : List (Str × Nat)
  confidence : ℚ
  analysis_period : Option AnalysisPeriod
  data_points : Option Nat
  error : Option Str
deriving DecidableEq

/-- The empty-corpus result of `detect_trends` (lines 33-41). -/
def empty_trend_result : TrendResult :=
  { direction := Direction.stable, strength := 1/2,
    emerging_topics := [], declining_topics := [], trend_indicators := [],
    confidence := 0, analysis_period := none, data_points := none, error := none }

/-- The `except` branch of `detect_trends` (lines 71-81). -/
def trend_error_result (e : Str) : TrendResult :=
  { direction := Direction.stable, strength := 1/2,
    emerging_topics := [], declining_topics := [], trend_indicators := [],
    confidence := 3/10, analysis_period := none, data_points := none,
    error := some e }

/-- The `try`/`except` of `detect_trends`: an exception from the body is
turned into the degraded error result. -/
def catch_trend : Except Str TrendResult → TrendResult
  | Except.ok r => r
  | Except.error e => trend_error_result e

/-- The `try` body of `detect_trends` (lines 43-69); total in this embedding
(every internal operation is), so it always returns `Except.ok`. -/
def detect_trends_body (parse : Str → Option ℤ) (now : ℤ) (data : List Doc)
    (query : Str) : Except Str TrendResult :=
  let kot := extract_keywords_over_time parse now data
  let dir := analyze_trend_direction data kot
  Except.ok
    { direction := dir.1, strength := dir.2,
      emerging_topics := detect_emerging_topics kot,
      declining_topics := detect_declining_topics kot,
      trend_indicators := identify_trend_indicators data,
      confidence := calculate_trend_confidence parse data kot,
      analysis_period := some (get_analysis_period parse data),
      data_points := some data.length, error := none }

/-- `detect_trends` (lines 30-81). -/
def detect_trends (parse : Str → Option ℤ) (now : ℤ) (data : List Doc)
    (query : Str) : TrendResult :=
  if data.isEmpty then empty_trend_result
  else catch_trend (detect_trends_body parse now data query)

/-! ## Helper lemmas -/

lemma keyword_method (data : List Doc) :
    (keyword_based_sentiment_analysis data).analysis_method = some "keyword_based".data := by
  unfold keyword_based_sentiment_analysis
  by_cases h : (data.foldl kw_step ⟨0, 0, 0, [], [], [], []⟩).pos_count +
      (data.foldl kw_step ⟨0, 0, 0, [], [], [], []⟩).neg_count +
      (data.foldl kw_step ⟨0, 0, 0, [], [], [], []⟩).neu_count = 0 <;>
    simp [h]

lemma keyword_sum_one (data : List Doc) :
    (keyword_based_sentiment_analysis data).positive +
      (keyword_based_sentiment_analysis data).negative +
      (keyword_based_sentiment_analysis data).neutral = 1 := by
  unfold keyword_based_sentiment_analysis
  set st := data.foldl kw_step ⟨0, 0, 0, [], [], [], []⟩ with hst
  by_cases h : st.pos_count + st.neg_count + st.neu_count = 0
  · simp [h]
  · simp only [h, if_neg h]
    have ht : (st.pos_count : ℚ) + st.neg_count + st.neu_count ≠ 0 := by
      have h2 : ((st.pos_count + st.neg_count + st.neu_count : ℕ) : ℚ) ≠ 0 :=
        Nat.cast_ne_zero.mpr h
      push_cast at h2
      exact h2
    push_cast
    field_simp

/-- C8: the empty corpus yields the fixed neutral sentiment result and the
fixed stable trend result. -/
theorem c8_empty_corpus_results :
    (∀ key resp, analyze_sentiment key resp [] =
      { overall := Sentiment.neutral, positive := 0, negative := 0, neutral := 1,
        confidence := 0, sample_positive := [], sample_negative := [],
        sample_neutral := [], sentiment_breakdown := [], analysis_method := none }) ∧
    (∀ parse now query, detect_trends parse now [] query =
      { direction := Direction.stable, strength := 1/2, emerging_topics := [],
        declining_topics := [], trend_indicators := [], confidence := 0,
        analysis_period := none, data_points := none, error := none }) := by
  refine ⟨fun key resp => rfl, fun parse now query => rfl⟩

/-- C7: a failing model-assisted call degrades to the keyword fallback for the
entire corpus (sentiment), and the trend engine turns any internal error into
the fixed well-formed stable/0.5/empty/0.3 result carrying the error marker. -/
theorem c7_error_handling_degrades :
    (∀ key e data, analyze_sentiment key (Except.error e) data =
        if data.isEmpty then empty_sentiment_result
        else keyword_based_sentiment_analysis data) ∧
    (∀ e, catch_trend (Except.error e) =
      { direction := Direction.stable, strength := 1/2, emerging_topics := [],
        declining_topics := [], trend_indicators := [], confidence := 3/10,
        analysis_period := none, data_points := none, error := some e }) := by
  constructor
  · intro key e data
    by_cases hd : data.isEmpty
    · simp [analyze_sentiment, hd]
    · simp only [analyze_sentiment, hd, if_neg, Bool.false_eq_true, if_false]
      by_cases hk : (key && decide (data.length ≤ 20)) = true
      · simp only [hk, if_true]
        unfold ai_sentiment_analysis
        by_cases hs : (text_samples data).isEmpty <;> simp [hs]
      · simp [hk]
  · intro e
    rfl

lemma foldl_kw_step_blank (data : List Doc) (st : KwState)
    (h : ∀ d ∈ data, stripIsEmpty (doc_text d) = true) :
    data.foldl kw_step st = st := by
  induction data generalizing st with
  | nil => rfl
  | cons d rest ih =>
      have hd : stripIsEmpty (doc_text d) = true := h d (List.mem_cons_self d rest)
      have hstep : kw_step st d = st := by
        unfold kw_step
        simp [hd]
      rw [List.foldl_cons, hstep]
      exact ih st (fun x hx => h x (List.mem_cons_of_mem d hx))

/-- A non-empty, whitespace-only document. -/
def blank_doc : Doc := ⟨[], [], none, none, []⟩

/-- C10: a non-empty corpus of only blank documents is skipped entirely by the
keyword fallback (empty breakdown, 0/0/1 ratios, neutral) with confidence 0.5,
unlike the empty-corpus result of `analyze_sentiment` whose confidence is 0. -/
theorem c10_blank_corpus_keyword_result (data : List Doc) (hne : data ≠ [])
    (hb : ∀ d ∈ data, stripIsEmpty (doc_text d) = true) :
    keyword_based_sentiment_analysis data =
      { overall := Sentiment.neutral, positive := 0, negative := 0, neutral := 1,
        confidence := 1/2, sample_positive := [], sample_negative := [],
        sample_neutral := [], sentiment_breakdown := [],
        analysis_method := some "keyword_based".data } ∧
    (∀ key resp, (analyze_sentiment key resp []).confidence = 0) ∧
    ((1 : ℚ)/2 ≠ 0) := by
  refine ⟨?_, fun key resp => rfl, by norm_num⟩
  unfold keyword_based_sentiment_analysis
  rw [foldl_kw_step_blank data _ hb]
  rfl

/-- Witness for C10 at the singleton corpus of one blank document. -/
theorem c10_blank_corpus_keyword_result_witness :
    keyword_based_sentiment_analysis [blank_doc] =
      { overall := Sentiment.neutral, positive := 0, negative := 0, neutral := 1,
        confidence := 1/2, sample_positive := [], sample_negative := [],
        sample_neutral := [], sentiment_breakdown := [],
        analysis_method := some "keyword_based".data } :=
  (c10_blank_corpus_keyword_result [blank_doc] (by simp) (by decide)).1

/-- The breakdown entry built for one non-blank document on the keyword path
(lines 189-196). -/
def kw_entry (d : Doc) : BreakdownEntry :=
  let text := doc_text d
  ⟨d.source.getD "unknown".data, (doc_sentiment text).1, (doc_sentiment text).2,
   text.take 100 ++ "...".data,
   some (count_keywords positive_keywords text),
   some (count_keywords negative_keywords text)⟩

lemma kw_step_breakdown (st : KwState) (d : Doc) :
    (kw_step st d).breakdown =
      if stripIsEmpty (doc_text d) then st.breakdown
      else st.breakdown ++ [kw_entry d] := by
  unfold kw_step kw_entry
  by_cases hd : stripIsEmpty (doc_text d)
  · simp [hd]
  · simp only [hd, Bool.false_eq_true, if_false]
    rcases hsc : doc_sentiment (doc_text d) with ⟨s, c⟩
    cases s <;> simp [hsc]

lemma foldl_kw_step_breakdown (data : List Doc) (st : KwState) :
    (data.foldl kw_step st).breakdown =
      st.breakdown ++
        ((data.filter (fun d => ¬ stripIsEmpty (doc_text d))).map kw_entry) := by
  induction data generalizing st with
  | nil => simp
  | cons d rest ih =>
      rw [List.foldl_cons, ih]
      by_cases hd : stripIsEmpty (doc_text d)
      · rw [kw_step_breakdown]
        simp [hd, List.filter_cons]
      · rw [kw_step_breakdown]
        simp [hd, List.filter_cons]

/-- C5: on the keyword fallback path every non-blank document is classified by
strict keyword-count majority (all ties resolve to neutral), with confidence
`min(0.9, 0.5 + 0.1*winning_count)` for positive/negative and `0.6` for
neutral; the breakdown records exactly these labels and confidences, one entry
per non-blank document. -/
theorem c5_per_document_classification :
    (∀ text : Str,
      (count_keywords positive_keywords text > count_keywords negative_keywords text ∧
       count_keywords positive_keywords text > count_keywords neutral_keywords text →
        doc_sentiment text =
          (Sentiment.positive,
           min (9/10) (1/2 + (count_keywords positive_keywords text : ℚ) / 10))) ∧
      (count_keywords negative_keywords text > count_keywords positive_keywords text ∧
       count_keywords negative_keywords text > count_keywords neutral_keywords text →
        doc_sentiment text =
          (Sentiment.negative,
           min (9/10) (1/2 + (count_keywords negative_keywords text : ℚ) / 10))) ∧
      (¬ (count_keywords positive_keywords text > count_keywords negative_keywords text ∧
          count_keywords positive_keywords text > count_keywords neutral_keywords text) ∧
       ¬ (count_keywords negative_keywords text > count_keywords positive_keywords text ∧
          count_keywords negative_keywords text > count_keywords neutral_keywords text) →
        doc_sentiment text = (Sentiment.neutral, 3/5))) ∧
    (∀ data : List Doc,
      (keyword_based_sentiment_analysis data).sentiment_breakdown =
        (data.filter (fun d => ¬ stripIsEmpty (doc_text d))).map kw_entry) := by
  constructor
  · intro text
    refine ⟨fun h => ?_, fun h => ?_, fun h => ?_⟩
    · unfold doc_sentiment
      rw [if_pos h, mul_one_div]
    · unfold doc_sentiment
      rw [if_neg (by
        rcases h with ⟨h1, _⟩
        rintro ⟨h3, _⟩
        exact absurd h1 (by omega)), if_pos h, mul_one_div]
    · unfold doc_sentiment
      rw [if_neg h.1, if_neg h.2]
  · intro data
    unfold keyword_based_sentiment_analysis
    by_cases h : (data.foldl kw_step ⟨0, 0, 0, [], [], [], []⟩).pos_count +
        (data.foldl kw_step ⟨0, 0, 0, [], [], [], []⟩).neg_count +
        (data.foldl kw_step ⟨0, 0, 0, [], [], [], []⟩).neu_count = 0 <;>
      simp [h, foldl_kw_step_breakdown]

/-- Witness for C5: a two-keyword positive text and an all-tie text. -/
theorem c5_per_document_classification_witness :
    doc_sentiment "growth profit surge".data =
      (Sentiment.positive,
       min (9/10) (1/2 + (count_keywords positive_keywords "growth profit surge".data : ℚ) / 10)) ∧
    doc_sentiment "hello world".data = (Sentiment.neutral, 3/5) :=
  ⟨((c5_per_document_classification.1 "growth profit surge".data).1 (by decide)),
   ((c5_per_document_classification.1 "hello world".data).2.2 (by decide))⟩

/-- C6: on the keyword path with at least one classified document, the overall
label is the ratio with strict plurality over both other ratios (else neutral)
and the overall confidence is `min(0.9, 0.5 + 0.4*max_ratio)`. -/
theorem c6_overall_aggregation (data : List Doc)
    (h : (data.foldl kw_step ⟨0, 0, 0, [], [], [], []⟩).pos_count +
         (data.foldl kw_step ⟨0, 0, 0, [], [], [], []⟩).neg_count +
         (data.foldl kw_step ⟨0, 0, 0, [], [], [], []⟩).neu_count ≠ 0) :
    (keyword_based_sentiment_analysis data).overall =
      (if ((data.foldl kw_step ⟨0, 0, 0, [], [], [], []⟩).pos_count : ℚ) /
            (((data.foldl kw_step ⟨0, 0, 0, [], [], [], []⟩).pos_count +
              (data.foldl kw_step ⟨0, 0, 0, [], [], [], []⟩).neg_count +
              (data.foldl kw_step ⟨0, 0, 0, [], [], [], []⟩).neu_count : ℕ) : ℚ) >
          ((data.foldl kw_step ⟨0, 0, 0, [], [], [], []⟩).neg_count : ℚ) /
            (((data.foldl kw_step ⟨0, 0, 0, [], [], [], []⟩).pos_count +
              (data.foldl kw_step ⟨0, 0, 0, [], [], [], []⟩).neg_count +
              (data.foldl kw_step ⟨0, 0, 0, [], [], [], []⟩).neu_count : ℕ) : ℚ) ∧
          ((data.foldl kw_step ⟨0, 0, 0, [], [], [], []⟩).pos_count : ℚ) /
            (((data.foldl kw_step ⟨0, 0, 0, [], [], [], []⟩).pos_count +
              (data.foldl kw_step ⟨0, 0, 0, [], [], [], []⟩).neg_count +
              (data.foldl kw_step ⟨0, 0, 0, [], [], [], []⟩).neu_count : ℕ) : ℚ) >
          ((data.foldl kw_step ⟨0, 0, 0, [], [], [], []⟩).neu_count : ℚ) /
            (((data.foldl kw_step ⟨0, 0, 0, [], [], [], []⟩).pos_count +
              (data.foldl kw_step ⟨0, 0, 0, [], [], [], []⟩).neg_count +
              (data.foldl kw_step ⟨0, 0, 0, [], [], [], []⟩).neu_count : ℕ) : ℚ)
       then Sentiment.positive
       else if ((data.foldl kw_step ⟨0, 0, 0, [], [], [], []⟩).neg_count : ℚ) /
            (((data.foldl kw_step ⟨0, 0, 0, [], [], [], []⟩).pos_count +
              (data.foldl kw_step ⟨0, 0, 0, [], [], [], []⟩).neg_count +
              (data.foldl kw_step ⟨0, 0, 0, [], [], [], []⟩).neu_count : ℕ) : ℚ) >
          ((data.foldl kw_step ⟨0, 0, 0, [], [], [], []⟩).pos_count : ℚ) /
            (((data.foldl kw_step ⟨0, 0, 0, [], [], [], []⟩).pos_count +
              (data.foldl kw_step ⟨0, 0, 0, [], [], [], []⟩).neg_count +
              (data.foldl kw_step ⟨0, 0, 0, [], [], [], []⟩).neu_count : ℕ) : ℚ) ∧
          ((data.foldl kw_step ⟨0, 0, 0, [], [], [], []⟩).neg_count : ℚ) /
            (((data.foldl kw_step ⟨0, 0, 0, [], [], [], []⟩).pos_count +
              (data.foldl kw_step ⟨0, 0, 0, [], [], [], []⟩).neg_count +
              (data.foldl kw_step ⟨0, 0, 0, [], [], [], []⟩).neu_count : ℕ) : ℚ) >
          ((data.foldl kw_step ⟨0, 0, 0, [], [], [], []⟩).neu_count : ℚ) /
            (((data.foldl kw_step ⟨0, 0, 0, [], [], [], []⟩).pos_count +
              (data.foldl kw_step ⟨0, 0, 0, [], [], [], []⟩).neg_count +
              (data.foldl kw_step ⟨0, 0, 0, [], [], [], []⟩).neu_count : ℕ) : ℚ)
       then Sentiment.negative
       else Sentiment.neutral) ∧
    (keyword_based_sentiment_analysis data).confidence =
      min (9/10)
        (1/2 +
          max (((data.foldl kw_step ⟨0, 0, 0, [], [], [], []⟩).pos_count : ℚ) /
            (((data.foldl kw_step ⟨0, 0, 0, [], [], [], []⟩).pos_count +
              (data.foldl kw_step ⟨0, 0, 0, [], [], [], []⟩).neg_count +
              (data.foldl kw_step ⟨0, 0, 0, [], [], [], []⟩).neu_count : ℕ) : ℚ))
          (max (((data.foldl kw_step ⟨0, 0, 0, [], [], [], []⟩).neg_count : ℚ) /
            (((data.foldl kw_step ⟨0, 0, 0, [], [], [], []⟩).pos_count +
              (data.foldl kw_step ⟨0, 0, 0, [], [], [], []⟩).neg_count +
              (data.foldl kw_step ⟨0, 0, 0, [], [], [], []⟩).neu_count : ℕ) : ℚ))
           (((data.foldl kw_step ⟨0, 0, 0, [], [], [], []⟩).neu_count : ℚ) /
            (((data.foldl kw_step ⟨0, 0, 0, [], [], [], []⟩).pos_count +
              (data.foldl kw_step ⟨0, 0, 0, [], [], [], []⟩).neg_count +
              (data.foldl kw_step ⟨0, 0, 0, [], [], [], []⟩).neu_count : ℕ) : ℚ))) *
          (2/5)) := by
  unfold keyword_based_sentiment_analysis
  simp only [h, if_neg h]
  exact ⟨rfl, rfl⟩

/-- A document whose text contains 3 positive and no negative/neutral keywords. -/
def pos_doc : Doc := ⟨"growth".data, "profit surge".data, none, none, []⟩

/-- A document whose text contains 2 negative and no positive/neutral keywords. -/
def neg_doc : Doc := ⟨"crash".data, "heavy loss".data, none, none, []⟩

/-- The spec's end-to-end corpus: 3 positive-classifying and 2
negative-classifying documents. -/
def docs5 : List Doc := [pos_doc, pos_doc, pos_doc, neg_doc, neg_doc]

/-- Witness for C6: the 5-document scenario yields overall positive with
confidence `min(0.9, 0.5 + 0.4*0.6) = 0.74`. -/
theorem c6_overall_aggregation_witness :
    (keyword_based_sentiment_analysis docs5).overall = Sentiment.positive ∧
    (keyword_based_sentiment_analysis docs5).confidence = 74/100 := by
  have h := c6_overall_aggregation docs5 (by decide)
  have hp : (docs5.foldl kw_step ⟨0, 0, 0, [], [], [], []⟩).pos_count = 3 := rfl
  have hn : (docs5.foldl kw_step ⟨0, 0, 0, [], [], [], []⟩).neg_count = 2 := rfl
  have hu : (docs5.foldl kw_step ⟨0, 0, 0, [], [], [], []⟩).neu_count = 0 := rfl
  rw [hp, hn, hu] at h
  refine ⟨?_, ?_⟩
  · rw [h.1]
    norm_num
  · rw [h.2]
    norm_num [max_def, min_def]

lemma analyze_sentiment_cases (key : Bool) (resp : Except Str AIResponse)
    (data : List Doc) :
    analyze_sentiment key resp data = empty_sentiment_result ∨
    analyze_sentiment key resp data = keyword_based_sentiment_analysis data ∨
    (analyze_sentiment key resp data).analysis_method = some "ai_powered".data := by
  unfold analyze_sentiment
  by_cases hd : data.isEmpty
  · left
    simp [hd]
  · by_cases hk : (key && decide (data.length ≤ 20)) = true
    · simp only [hd, Bool.false_eq_true, if_false, hk, if_true]
      unfold ai_sentiment_analysis
      by_cases hs : (text_samples data).isEmpty
      · right; left
        simp [hs]
      · cases resp with
        | error e => right; left; simp [hs]
        | ok r => right; right; simp [hs]
    · right; left
      simp [hd, hk]

/-- C4 counterexample: with a configured model path and a model response whose
three scores are all 1, `analyze_sentiment` on a one-document corpus returns
ratios summing to 3, not within 1e-6 of 1. -/
theorem c4_counterexample_ai_scores :
    (analyze_sentiment true (Except.ok ⟨Sentiment.neutral, 1, 1, 1, 1/2, []⟩)
        [pos_doc]).positive +
      (analyze_sentiment true (Except.ok ⟨Sentiment.neutral, 1, 1, 1, 1/2, []⟩)
        [pos_doc]).negative +
      (analyze_sentiment true (Except.ok ⟨Sentiment.neutral, 1, 1, 1, 1/2, []⟩)
        [pos_doc]).neutral = 3 ∧
    ¬ (|(analyze_sentiment true (Except.ok ⟨Sentiment.neutral, 1, 1, 1, 1/2, []⟩)
        [pos_doc]).positive +
      (analyze_sentiment true (Except.ok ⟨Sentiment.neutral, 1, 1, 1, 1/2, []⟩)
        [pos_doc]).negative +
      (analyze_sentiment true (Except.ok ⟨Sentiment.neutral, 1, 1, 1, 1/2, []⟩)
        [pos_doc]).neutral - 1| ≤ 1/1000000) ∧
    [pos_doc] ≠ ([] : List Doc) := by
  have hpos : (analyze_sentiment true (Except.ok ⟨Sentiment.neutral, 1, 1, 1, 1/2, []⟩)
      [pos_doc]).positive = 1 := rfl
  have hneg : (analyze_sentiment true (Except.ok ⟨Sentiment.neutral, 1, 1, 1, 1/2, []⟩)
      [pos_doc]).negative = 1 := rfl
  have hneu : (analyze_sentiment true (Except.ok ⟨Sentiment.neutral, 1, 1, 1, 1/2, []⟩)
      [pos_doc]).neutral = 1 := rfl
  rw [hpos, hneg, hneu]
  norm_num

/-- C4 (amended): whenever the result does not come from the model-assisted
path (empty corpus, keyword fallback, or any model-path failure), the three
ratios sum to exactly 1; the model path copies the scores verbatim from the
response, so no sum constraint holds there. -/
theorem c4_ratio_sum_amended (key : Bool) (resp : Except Str AIResponse)
    (data : List Doc)
    (h : (analyze_sentiment key resp data).analysis_method ≠ some "ai_powered".data) :
    (analyze_sentiment key resp data).positive +
      (analyze_sentiment key resp data).negative +
      (analyze_sentiment key resp data).neutral = 1 := by
  rcases analyze_sentiment_cases key resp data with hc | hc | hc
  · rw [hc]
    norm_num [empty_sentiment_result]
  · rw [hc]
    exact keyword_sum_one data
  · exact absurd hc h

/-- Witness for the amended C4 on a keyword-path invocation. -/
theorem c4_ratio_sum_amended_witness :
    (analyze_sentiment false (Except.error []) [pos_doc]).positive +
      (analyze_sentiment false (Except.error []) [pos_doc]).negative +
      (analyze_sentiment false (Except.error []) [pos_doc]).neutral = 1 :=
  c4_ratio_sum_amended false (Except.error []) [pos_doc] (by
    have : analyze_sentiment false (Except.error []) [pos_doc] =
        keyword_based_sentiment_analysis [pos_doc] := rfl
    rw [this, keyword_method]
    simp)

lemma insertByTime_length (x : ℤ × Nat) (l : List (ℤ × Nat)) :
    (insertByTime x l).length = l.length + 1 := by
  induction l with
  | nil => rfl
  | cons y ys ih =>
      unfold insertByTime
      by_cases h : y.1 ≤ x.1 <;> simp [h, ih]

lemma foldl_insertByTime_length (tl : List (ℤ × Nat)) :
    ∀ acc : List (ℤ × Nat),
      (tl.foldl (fun acc x => insertByTime x acc) acc).length =
        acc.length + tl.length := by
  induction tl with
  | nil => intro acc; simp
  | cons x rest ih =>
      intro acc
      rw [List.foldl_cons, ih, insertByTime_length]
      simp [List.length_cons]
      omega

lemma timelineSort_length (tl : List (ℤ × Nat)) :
    (timelineSort tl).length = tl.length := by
  unfold timelineSort
  rw [foldl_insertByTime_length]
  simp

lemma avg_nonneg (counts : List Nat) :
    (0 : ℚ) ≤ ((counts.sum : ℚ)) / ((counts.length : ℚ)) := by
  apply div_nonneg <;> positivity

lemma short_timeline_not_flagged (tl : List (ℤ × Nat)) (h : tl.length ≤ 3) :
    emerging_cond tl = false ∧ declining_cond tl = false := by
  by_cases h2 : tl.length < 2
  · constructor
    · unfold emerging_cond
      rw [if_pos h2]
    · unfold declining_cond
      rw [if_pos h2]
  · have hlen : (timelineSort tl).length = tl.length := timelineSort_length tl
    have hdrop : (timelineSort tl).length - 3 = 0 := by omega
    have htake : (timelineSort tl).take 3 = timelineSort tl :=
      List.take_of_length_le (by omega)
    have havg := avg_nonneg ((timelineSort tl).map Prod.snd)
    constructor
    · unfold emerging_cond
      rw [if_neg h2]
      simp only [hdrop, List.drop_zero, htake]
      rw [if_pos (by constructor <;> simp [List.length_map] <;> omega)]
      apply decide_eq_false
      rintro ⟨hgt, -⟩
      linarith
    · unfold declining_cond
      rw [if_neg h2]
      simp only [hdrop, List.drop_zero, htake]
      rw [if_pos (by constructor <;> simp [List.length_map] <;> omega)]
      apply decide_eq_false
      rintro ⟨hgt, -⟩
      linarith

/-- C9: with at most 3 timeline points the last-3 and first-3 windows coincide,
both strict activation tests fail, and the keyword is never listed among the
emerging or declining topics; flagging needs at least 4 buckets. -/
theorem c9_short_timelines_never_flagged :
    (∀ tl : List (ℤ × Nat), tl.length ≤ 3 →
      emerging_cond tl = false ∧ declining_cond tl = false) ∧
    (∀ (kot : List (Str × List (ℤ × Nat))) (kw : Str),
      (∀ tl, (kw, tl) ∈ kot → tl.length ≤ 3) →
      kw ∉ detect_emerging_topics kot ∧ kw ∉ detect_declining_topics kot) := by
  refine ⟨short_timeline_not_flagged, ?_⟩
  intro kot kw h
  constructor
  · intro hmem
    unfold detect_emerging_topics at hmem
    have hmem2 := List.mem_of_mem_take hmem
    rcases List.mem_map.mp hmem2 with ⟨⟨pk, ptl⟩, hp, rfl⟩
    rcases List.mem_filter.mp hp with ⟨hpmem, hpcond⟩
    have hple : ptl.length ≤ 3 := h ptl hpmem
    rw [(short_timeline_not_flagged ptl hple).1] at hpcond
    exact Bool.false_ne_true hpcond
  · intro hmem
    unfold detect_declining_topics at hmem
    have hmem2 := List.mem_of_mem_take hmem
    rcases List.mem_map.mp hmem2 with ⟨⟨pk, ptl⟩, hp, rfl⟩
    rcases List.mem_filter.mp hp with ⟨hpmem, hpcond⟩
    have hple : ptl.length ≤ 3 := h ptl hpmem
    rw [(short_timeline_not_flagged ptl hple).2] at hpcond
    exact Bool.false_ne_true hpcond

/-- Witness for C9 at a single three-bucket timeline. -/
theorem c9_short_timelines_never_flagged_witness :
    ("ai".data ∉ detect_emerging_topics
        [("ai".data, [((0:ℤ), (5:ℕ)), (60, 5), (120, 5)])] ∧
     "ai".data ∉ detect_declining_topics
        [("ai".data, [((0:ℤ), (5:ℕ)), (60, 5), (120, 5)])]) :=
  c9_short_timelines_never_flagged.2
    [("ai".data, [((0:ℤ), (5:ℕ)), (60, 5), (120, 5)])] "ai".data
    (by
      intro tl htl
      simp only [List.mem_singleton, Prod.mk.injEq] at htl
      rw [htl.2]
      decide)

/-- `recent_counts` of `_detect_emerging_topics`: the counts of the last
`min 3 n` points of an `n`-point timeline (`timeline[-3:]`). -/
def recent_counts (tl : List (ℤ × Nat)) : List Nat :=
  (tl.drop (tl.length - 3)).map Prod.snd

/-- `earlier_counts`: the counts of the first 3 points (`timeline[:3]`). -/
def earlier_counts (tl : List (ℤ × Nat)) : List Nat :=
  (tl.take 3).map Prod.snd

/-- `recent_avg = sum(recent_counts)/len(recent_counts)`. -/
def recent_avg (tl : List (ℤ × Nat)) : ℚ :=
  ((recent_counts tl).sum : ℚ) / ((recent_counts tl).length : ℚ)

/-- `earlier_avg = sum(earlier_counts)/len(earlier_counts)`. -/
def earlier_avg (tl : List (ℤ × Nat)) : ℚ :=
  ((earlier_counts tl).sum : ℚ) / ((earlier_counts tl).length : ℚ)

lemma insertByTime_append (x : ℤ × Nat) (acc : List (ℤ × Nat))
    (h : ∀ y ∈ acc, y.1 ≤ x.1) : insertByTime x acc = acc ++ [x] := by
  induction acc with
  | nil => rfl
  | cons y ys ih =>
      unfold insertByTime
      rw [if_pos (h y (List.mem_cons_self y ys))]
      rw [ih (fun z hz => h z (List.mem_cons_of_mem y hz))]
      simp

lemma foldl_insertByTime_sorted (tl : List (ℤ × Nat)) :
    ∀ acc : List (ℤ × Nat),
      List.Pairwise (fun a b : ℤ × Nat => a.1 ≤ b.1) tl →
      (∀ x ∈ tl, ∀ y ∈ acc, y.1 ≤ x.1) →
      tl.foldl (fun acc x => insertByTime x acc) acc = acc ++ tl := by
  induction tl with
  | nil => intro acc _ _; simp
  | cons x rest ih =>
      intro acc hp hall
      rw [List.foldl_cons]
      rw [insertByTime_append x acc (hall x (List.mem_cons_self x rest))]
      rw [ih (acc ++ [x]) (List.pairwise_cons.mp hp).2 ?_]
      · simp
      · intro z hz y hy
        rcases List.mem_append.mp hy with hy | hy
        · exact hall z (List.mem_cons_of_mem x hz) y hy
        · rw [List.mem_singleton.mp hy]
          exact (List.pairwise_cons.mp hp).1 z hz

lemma timelineSort_of_sorted (tl : List (ℤ × Nat))
    (h : List.Pairwise (fun a b : ℤ × Nat => a.1 ≤ b.1) tl) :
    timelineSort tl = tl := by
  unfold timelineSort
  rw [foldl_insertByTime_sorted tl [] h (by intro x _ y hy; cases hy)]
  simp

lemma emerging_cond_sorted (tl : List (ℤ × Nat))
    (hs : List.Pairwise (fun a b : ℤ × Nat => a.1 ≤ b.1) tl)
    (h2 : 2 ≤ tl.length) :
    emerging_cond tl = true ↔
      recent_avg tl > (3/2) * earlier_avg tl ∧ recent_avg tl ≥ 2 := by
  unfold emerging_cond
  rw [if_neg (by omega), timelineSort_of_sorted tl hs]
  rw [if_pos (by
    constructor <;> simp [List.length_map, List.length_drop, List.length_take] <;> omega)]
  rw [decide_eq_true_eq]
  unfold recent_avg earlier_avg recent_counts earlier_counts
  constructor
  · rintro ⟨hgt, hge⟩
    exact ⟨by linarith, hge⟩
  · rintro ⟨hgt, hge⟩
    exact ⟨by linarith, hge⟩

lemma declining_cond_sorted (tl : List (ℤ × Nat))
    (hs : List.Pairwise (fun a b : ℤ × Nat => a.1 ≤ b.1) tl)
    (h2 : 2 ≤ tl.length) :
    declining_cond tl = true ↔
      earlier_avg tl > (3/2) * recent_avg tl ∧ earlier_avg tl ≥ 3 := by
  unfold declining_cond
  rw [if_neg (by omega), timelineSort_of_sorted tl hs]
  rw [if_pos (by
    constructor <;> simp [List.length_map, List.length_drop, List.length_take] <;> omega)]
  rw [decide_eq_true_eq]
  unfold recent_avg earlier_avg recent_counts earlier_counts
  constructor
  · rintro ⟨hgt, hge⟩
    exact ⟨by linarith, hge⟩
  · rintro ⟨hgt, hge⟩
    exact ⟨by linarith, hge⟩

/-- C2: a keyword with a ≥2-point time-ordered timeline is flagged emerging
exactly when mean(last 3) > 1.5*mean(first 3) and mean(last 3) ≥ 2, and
declining exactly when mean(first 3) > 1.5*mean(last 3) and mean(first 3) ≥ 3
(the membership ↔ holds whenever the qualifying keywords fit the 10-cap);
both lists are capped at 10. -/
theorem c2_emerging_declining_rules :
    (∀ kot : List (Str × List (ℤ × Nat)),
      (detect_emerging_topics kot).length ≤ 10 ∧
      (detect_declining_topics kot).length ≤ 10) ∧
    (∀ tl : List (ℤ × Nat),
      List.Pairwise (fun a b : ℤ × Nat => a.1 ≤ b.1) tl → 2 ≤ tl.length →
      (emerging_cond tl = true ↔
        recent_avg tl > (3/2) * earlier_avg tl ∧ recent_avg tl ≥ 2) ∧
      (declining_cond tl = true ↔
        earlier_avg tl > (3/2) * recent_avg tl ∧ earlier_avg tl ≥ 3)) ∧
    (∀ tl : List (ℤ × Nat), tl.length < 2 →
      emerging_cond tl = false ∧ declining_cond tl = false) ∧
    (∀ (kot : List (Str × List (ℤ × Nat))) (kw : Str),
      kw ∈ detect_emerging_topics kot →
        ∃ tl, (kw, tl) ∈ kot ∧ emerging_cond tl = true) ∧
    (∀ (kot : List (Str × List (ℤ × Nat))) (kw : Str),
      kw ∈ detect_declining_topics kot →
        ∃ tl, (kw, tl) ∈ kot ∧ declining_cond tl = true) ∧
    (∀ (kot : List (Str × List (ℤ × Nat))) (kw : Str) (tl : List (ℤ × Nat)),
      (kw, tl) ∈ kot → emerging_cond tl = true →
      (kot.filter (fun p => emerging_cond p.2)).length ≤ 10 →
      kw ∈ detect_emerging_topics kot) ∧
    (∀ (kot : List (Str × List (ℤ × Nat))) (kw : Str) (tl : List (ℤ × Nat)),
      (kw, tl) ∈ kot → declining_cond tl = true →
      (kot.filter (fun p => declining_cond p.2)).length ≤ 10 →
      kw ∈ detect_declining_topics kot) := by
  refine ⟨?_, ?_, ?_, ?_, ?_, ?_, ?_⟩
  · intro kot
    exact ⟨List.length_take_le 10 _, List.length_take_le 10 _⟩
  · intro tl hs h2
    exact ⟨emerging_cond_sorted tl hs h2, declining_cond_sorted tl hs h2⟩
  · intro tl h2
    constructor
    · unfold emerging_cond
      rw [if_pos h2]
    · unfold declining_cond
      rw [if_pos h2]
  · intro kot kw hmem
    unfold detect_emerging_topics at hmem
    rcases List.mem_map.mp (List.mem_of_mem_take hmem) with ⟨⟨pk, ptl⟩, hp, rfl⟩
    rcases List.mem_filter.mp hp with ⟨hpmem, hpcond⟩
    exact ⟨ptl, hpmem, hpcond⟩
  · intro kot kw hmem
    unfold detect_declining_topics at hmem
    rcases List.mem_map.mp (List.mem_of_mem_take hmem) with ⟨⟨pk, ptl⟩, hp, rfl⟩
    rcases List.mem_filter.mp hp with ⟨hpmem, hpcond⟩
    exact ⟨ptl, hpmem, hpcond⟩
  · intro kot kw tl hmem hcond hlen
    unfold detect_emerging_topics
    rw [List.take_of_length_le (by rw [List.length_map]; exact hlen)]
    exact List.mem_map.mpr ⟨(kw, tl), List.mem_filter.mpr ⟨hmem, hcond⟩, rfl⟩
  · intro kot kw tl hmem hcond hlen
    unfold detect_declining_topics
    rw [List.take_of_length_le (by rw [List.length_map]; exact hlen)]
    exact List.mem_map.mpr ⟨(kw, tl), List.mem_filter.mpr ⟨hmem, hcond⟩, rfl⟩

/-- Spec's emerging-topic test timeline: earlier counts `[1,1,1]`, recent
counts `[3,3,3]`. -/
def emerging_tl : List (ℤ × Nat) :=
  [(0, 1), (60, 1), (120, 1), (180, 3), (240, 3), (300, 3)]

/-- Spec's declining-topic test timeline: earlier counts `[4,4,4]`, recent
counts `[1,1,1]`. -/
def declining_tl : List (ℤ × Nat) :=
  [(0, 4), (60, 4), (120, 4), (180, 1), (240, 1), (300, 1)]

/-- Witness for C2 at the spec's two test timelines. -/
theorem c2_emerging_declining_rules_witness :
    "ai".data ∈ detect_emerging_topics [("ai".data, emerging_tl)] ∧
    "meta".data ∈ detect_declining_topics [("meta".data, declining_tl)] := by
  have he : emerging_cond emerging_tl = true :=
    (c2_emerging_declining_rules.2.1 emerging_tl (by decide) (by decide)).1.mpr
      (by norm_num [recent_avg, earlier_avg, recent_counts, earlier_counts, emerging_tl])
  have hd : declining_cond declining_tl = true :=
    (c2_emerging_declining_rules.2.1 declining_tl (by decide) (by decide)).2.mpr
      (by norm_num [recent_avg, earlier_avg, recent_counts, earlier_counts, declining_tl])
  constructor
  · exact c2_emerging_declining_rules.2.2.2.2.2.1
      [("ai".data, emerging_tl)] "ai".data emerging_tl (by simp) he
      (by simp [List.filter_cons, he])
  · exact c2_emerging_declining_rules.2.2.2.2.2.2
      [("meta".data, declining_tl)] "meta".data declining_tl (by simp) hd
      (by simp [List.filter_cons, hd])

lemma mem_bucket_upsert (key : ℤ) (d : Doc) (acc : List (ℤ × List Doc))
    (k : ℤ) (ds : List Doc) (h : (k, ds) ∈ bucket_upsert key d acc) :
    (k, ds) ∈ acc ∨ (k = key ∧ ds = [d]) ∨
    (k = key ∧ ∃ ds₀, (k, ds₀) ∈ acc ∧ ds = ds₀ ++ [d]) := by
  induction acc with
  | nil =>
      simp only [bucket_upsert, List.mem_singleton, Prod.mk.injEq] at h
      exact Or.inr (Or.inl ⟨h.1, h.2⟩)
  | cons b rest ih =>
      rcases b with ⟨k', ds'⟩
      unfold bucket_upsert at h
      by_cases hk : k' = key
      · rw [if_pos hk] at h
        rcases List.mem_cons.mp h with h | h
        · have h1 : k = k' := congrArg Prod.fst h
          have h2 : ds = ds' ++ [d] := congrArg Prod.snd h
          subst h1
          exact Or.inr (Or.inr ⟨hk, ds', List.mem_cons_self _ _, h2⟩)
        · exact Or.inl (List.mem_cons_of_mem _ h)
      · rw [if_neg hk] at h
        rcases List.mem_cons.mp h with h | h
        · exact Or.inl (h ▸ List.mem_cons_self _ _)
        · rcases ih h with h | h | h
          · exact Or.inl (List.mem_cons_of_mem _ h)
          · exact Or.inr (Or.inl h)
          · rcases h with ⟨h1, ds₀, hds₀, h2⟩
            exact Or.inr (Or.inr ⟨h1, ds₀, List.mem_cons_of_mem _ hds₀, h2⟩)

lemma time_buckets_sound_aux (parse : Str → Option ℤ) (now : ℤ) :
    ∀ (data : List Doc) (acc : List (ℤ × List Doc)),
      (∀ k ds x, (k, ds) ∈ acc → x ∈ ds → bucket_key parse now x = some k) →
      ∀ k ds x,
        (k, ds) ∈ data.foldl (fun acc d =>
          match bucket_key parse now d with
          | none => acc
          | some k => bucket_upsert k d acc) acc →
        x ∈ ds → bucket_key parse now x = some k := by
  intro data
  induction data with
  | nil => intro acc hacc k ds x hmem hx; exact hacc k ds x hmem hx
  | cons d rest ih =>
      intro acc hacc k ds x hmem hx
      rw [List.foldl_cons] at hmem
      rcases hbk : bucket_key parse now d with _ | key
      · rw [hbk] at hmem
        exact ih acc hacc k ds x hmem hx
      · rw [hbk] at hmem
        refine ih (bucket_upsert key d acc) ?_ k ds x hmem hx
        intro k' ds' y hmem' hy
        rcases mem_bucket_upsert key d acc k' ds' hmem' with h | h | h
        · exact hacc k' ds' y h hy
        · rcases h with ⟨h1, h2⟩
          rw [h2, List.mem_singleton] at hy
          rw [hy, hbk, h1]
        · rcases h with ⟨h1, ds₀, hds₀, h2⟩
          rw [h2, List.mem_append] at hy
          rcases hy with hy | hy
          · exact hacc k' ds₀ y hds₀ hy
          · rw [List.mem_singleton.mp hy, hbk, h1]

lemma time_buckets_sound (parse : Str → Option ℤ) (now : ℤ) (data : List Doc)
    (k : ℤ) (ds : List Doc) (x : Doc)
    (hmem : (k, ds) ∈ time_buckets parse now data) (hx : x ∈ ds) :
    bucket_key parse now x = some k :=
  time_buckets_sound_aux parse now data []
    (by intro k' ds' y h; cases h) k ds x hmem hx

lemma bucket_upsert_adds (key : ℤ) (d : Doc) (acc : List (ℤ × List Doc)) :
    ∃ ds, (key, ds) ∈ bucket_upsert key d acc ∧ d ∈ ds := by
  induction acc with
  | nil =>
      exact ⟨[d], List.mem_singleton_self _, List.mem_singleton_self d⟩
  | cons b rest ih =>
      rcases b with ⟨k', ds'⟩
      unfold bucket_upsert
      by_cases hk : k' = key
      · rw [if_pos hk]
        exact ⟨ds' ++ [d], hk ▸ List.mem_cons_self _ _,
          List.mem_append_right _ (List.mem_singleton_self d)⟩
      · rw [if_neg hk]
        rcases ih with ⟨ds, hds, hd⟩
        exact ⟨ds, List.mem_cons_of_mem _ hds, hd⟩

lemma bucket_upsert_keeps (key : ℤ) (d : Doc) (acc : List (ℤ × List Doc))
    (k : ℤ) (ds : List Doc) (x : Doc)
    (hmem : (k, ds) ∈ acc) (hx : x ∈ ds) :
    ∃ ds', (k, ds') ∈ bucket_upsert key d acc ∧ x ∈ ds' := by
  induction acc with
  | nil => cases hmem
  | cons b rest ih =>
      rcases b with ⟨k', ds₀⟩
      unfold bucket_upsert
      rcases List.mem_cons.mp hmem with h | h
      · have h1 : k = k' := congrArg Prod.fst h
        have h2 : ds = ds₀ := congrArg Prod.snd h
        subst h1
        subst h2
        by_cases hk : k = key
        · rw [if_pos hk]
          exact ⟨ds ++ [d], List.mem_cons_self _ _,
            List.mem_append_left _ hx⟩
        · rw [if_neg hk]
          exact ⟨ds, List.mem_cons_self _ _, hx⟩
      · by_cases hk : k' = key
        · rw [if_pos hk]
          exact ⟨ds, List.mem_cons_of_mem _ h, hx⟩
        · rw [if_neg hk]
          rcases ih h with ⟨ds', hds', hx'⟩
          exact ⟨ds', List.mem_cons_of_mem _ hds', hx'⟩

lemma foldl_buckets_keeps (parse : Str → Option ℤ) (now : ℤ) :
    ∀ (data : List Doc) (acc : List (ℤ × List Doc)) (k : ℤ) (ds : List Doc)
      (x : Doc), (k, ds) ∈ acc → x ∈ ds →
      ∃ ds', (k, ds') ∈ data.foldl (fun acc d =>
          match bucket_key parse now d with
          | none => acc
          | some k => bucket_upsert k d acc) acc ∧ x ∈ ds' := by
  intro data
  induction data with
  | nil => intro acc k ds x hmem hx; exact ⟨ds, hmem, hx⟩
  | cons d rest ih =>
      intro acc k ds x hmem hx
      rw [List.foldl_cons]
      rcases hbk : bucket_key parse now d with _ | key
      · exact ih acc k ds x hmem hx
      · rcases bucket_upsert_keeps key d acc k ds x hmem hx with ⟨ds', hds', hx'⟩
        exact ih (bucket_upsert key d acc) k ds' x hds' hx'

lemma time_buckets_complete_aux (parse : Str → Option ℤ) (now : ℤ) :
    ∀ (data : List Doc) (acc : List (ℤ × List Doc)) (d : Doc) (key : ℤ),
      d ∈ data → bucket_key parse now d = some key →
      ∃ ds, (key, ds) ∈ data.foldl (fun acc d =>
          match bucket_key parse now d with
          | none => acc
          | some k => bucket_upsert k d acc) acc ∧ d ∈ ds := by
  intro data
  induction data with
  | nil => intro acc d key hd; cases hd
  | cons d₀ rest ih =>
      intro acc d key hd hbk
      rw [List.foldl_cons]
      rcases List.mem_cons.mp hd with h | h
      · subst h
        rw [hbk]
        rcases bucket_upsert_adds key d acc with ⟨ds, hds, hd'⟩
        exact foldl_buckets_keeps parse now rest _ key ds d hds hd'
      · rcases hbk0 : bucket_key parse now d₀ with _ | key₀
        · exact ih acc d key h hbk
        · exact ih (bucket_upsert key₀ d₀ acc) d key h hbk

lemma time_buckets_complete (parse : Str → Option ℤ) (now : ℤ) (data : List Doc)
    (d : Doc) (key : ℤ) (hd : d ∈ data)
    (hbk : bucket_key parse now d = some key) :
    ∃ ds, (key, ds) ∈ time_buckets parse now data ∧ d ∈ ds :=
  time_buckets_complete_aux parse now data [] d key hd hbk

/-- A document with no `published_at` key at all. -/
def no_date_doc : Doc := ⟨"t".data, "c".data, none, none, []⟩

/-- A document with a present but unparseable `published_at`. -/
def bad_date_doc : Doc := ⟨"t".data, "c".data, some "not-a-date".data, none, []⟩

/-- C3 counterexample: a document whose `published_at` is absent is not placed
in any bucket at all — in particular not in the fallback bucket — because the
`if item.get('published_at')` guard fails without raising, so the `except`
handler never runs. -/
theorem c3_counterexample_absent_date :
    time_buckets (fun _ => none) 0 [no_date_doc] = [] ∧
    ¬ ∃ ds, (truncHour 0, ds) ∈ time_buckets (fun _ => none) 0 [no_date_doc] ∧
        no_date_doc ∈ ds := by
  refine ⟨rfl, ?_⟩
  rintro ⟨ds, hmem, -⟩
  rw [show time_buckets (fun _ => none) 0 [no_date_doc] = [] from rfl] at hmem
  cases hmem

/-- C3 (amended): a document with a present, non-empty but unparseable
`published_at` is tolerated and lands in the single shared fallback bucket
`now` truncated to the hour; a document whose `published_at` is absent or
empty is tolerated but skipped from bucketing entirely (it appears in no
bucket). -/
theorem c3_fallback_bucketing_amended (parse : Str → Option ℤ) (now : ℤ)
    (data : List Doc) :
    (∀ d : Doc, d.published_at = none ∨ d.published_at = some [] →
      ∀ k ds, (k, ds) ∈ time_buckets parse now data → d ∉ ds) ∧
    (∀ (d : Doc) (s : Str), d ∈ data → d.published_at = some s → s ≠ [] →
      parse s = none →
      ∃ ds, (truncHour now, ds) ∈ time_buckets parse now data ∧ d ∈ ds) := by
  constructor
  · intro d hd k ds hmem hin
    have hbk := time_buckets_sound parse now data k ds d hmem hin
    rcases hd with hd | hd <;>
      simp [bucket_key, hd] at hbk
  · intro d s hd hpa hs hparse
    refine time_buckets_complete parse now data d (truncHour now) hd ?_
    simp [bucket_key, hpa, hs, hparse]

/-- Witness for the amended C3: an unparseable date lands in the fallback
bucket. -/
theorem c3_fallback_bucketing_amended_witness :
    ∃ ds, (truncHour 0, ds) ∈ time_buckets (fun _ => none) 0 [bad_date_doc] ∧
      bad_date_doc ∈ ds :=
  (c3_fallback_bucketing_amended (fun _ => none) 0 [bad_date_doc]).2
    bad_date_doc "not-a-date".data (List.mem_singleton_self _) rfl
    (by decide) rfl

lemma foldl_min_le (xs : List ℤ) : ∀ x : ℤ, xs.foldl min x ≤ x := by
  induction xs with
  | nil => intro x; exact le_refl x
  | cons y ys ih =>
      intro x
      rw [List.foldl_cons]
      exact le_trans (ih (min x y)) (min_le_left x y)

lemma le_foldl_max (xs : List ℤ) : ∀ x : ℤ, x ≤ xs.foldl max x := by
  induction xs with
  | nil => intro x; exact le_refl x
  | cons y ys ih =>
      intro x
      rw [List.foldl_cons]
      exact le_trans (le_max_left x y) (ih (max x y))

lemma listMinZ_le_listMaxZ (ds : List ℤ) (h : ds ≠ []) :
    listMinZ ds ≤ listMaxZ ds := by
  rcases ds with _ | ⟨x, xs⟩
  · exact absurd rfl h
  · exact le_trans (foldl_min_le xs x) (le_foldl_max xs x)

lemma time_span_hours_nonneg (parse : Str → Option ℤ) (data : List Doc) :
    0 ≤ time_span_hours parse data := by
  unfold time_span_hours
  by_cases h : (parsed_dates parse data).length < 2
  · rw [if_pos h]
    norm_num
  · rw [if_neg h]
    apply div_nonneg _ (by norm_num)
    have hne : parsed_dates parse data ≠ [] := by
      intro hc
      rw [hc] at h
      exact h (by norm_num)
    have hmm := listMinZ_le_listMaxZ (parsed_dates parse data) hne
    have hq : ((listMinZ (parsed_dates parse data) : ℚ)) ≤
        ((listMaxZ (parsed_dates parse data) : ℚ)) := by exact_mod_cast hmm
    push_cast
    linarith

lemma trend_consistency_bounds (kot : List (Str × List (ℤ × Nat))) :
    0 ≤ trend_consistency kot ∧ trend_consistency kot ≤ 1 := by
  unfold trend_consistency
  by_cases h0 : kot = []
  · rw [if_pos h0]
    norm_num
  · rw [if_neg h0]
    by_cases h1 : (kot.filter (fun p => 3 ≤ p.2.length)).length = 0
    · rw [if_pos h1]
      norm_num
    · rw [if_neg h1]
      have hle := List.length_filter_le (fun p => consistency_cond p.2)
        (kot.filter (fun p => 3 ≤ p.2.length))
      have hpos : (0:ℚ) < ((kot.filter (fun p => 3 ≤ p.2.length)).length : ℚ) := by
        have : 0 < (kot.filter (fun p => 3 ≤ p.2.length)).length := Nat.pos_of_ne_zero h1
        exact_mod_cast this
      constructor
      · apply div_nonneg <;> positivity
      · rw [div_le_one hpos]
        exact_mod_cast hle

lemma data_quality_score_bounds (data : List Doc) :
    0 ≤ data_quality_score data ∧ data_quality_score data ≤ 1 := by
  unfold data_quality_score
  by_cases h0 : data = []
  · rw [if_pos h0]
    norm_num
  · rw [if_neg h0]
    have hle := List.length_filter_le doc_complete data
    have hpos : (0:ℚ) < (data.length : ℚ) := by
      have : 0 < data.length := List.length_pos.mpr h0
      exact_mod_cast this
    constructor
    · apply div_nonneg <;> positivity
    · rw [div_le_one hpos]
      exact_mod_cast hle

lemma round2_bounds (q : ℚ) (h0 : 0 ≤ q) (h1 : q ≤ 1) :
    0 ≤ round2 q ∧ round2 q ≤ 1 := by
  unfold round2
  have hr := round_eq (q * 100)
  constructor
  · apply div_nonneg _ (by norm_num)
    rw [hr]
    have hz : (0:ℤ) ≤ ⌊q * 100 + 1/2⌋ := Int.le_floor.mpr (by push_cast; linarith)
    exact_mod_cast hz
  · rw [div_le_one (by norm_num), hr]
    have h2 : (⌊q * 100 + 1/2⌋ : ℚ) ≤ q * 100 + 1/2 := Int.floor_le _
    have h3 : ⌊q * 100 + 1/2⌋ ≤ 100 := by
      by_contra hc
      push_neg at hc
      have : (101:ℚ) ≤ (⌊q * 100 + 1/2⌋ : ℚ) := by exact_mod_cast hc
      linarith
    exact_mod_cast h3

lemma calculate_trend_confidence_bounds (parse : Str → Option ℤ)
    (data : List Doc) (kot : List (Str × List (ℤ × Nat))) :
    0 ≤ calculate_trend_confidence parse data kot ∧
    calculate_trend_confidence parse data kot ≤ 1 ∧
    ∃ z : ℤ, calculate_trend_confidence parse data kot = (z : ℚ) / 100 := by
  have ha1 : (0:ℚ) ≤ min 1 ((data.length : ℚ) / 50) :=
    le_min (by norm_num) (by positivity)
  have ha2 : min 1 ((data.length : ℚ) / 50) ≤ 1 := min_le_left 1 _
  have hb1 : (0:ℚ) ≤ min 1 (time_span_hours parse data / 168) :=
    le_min (by norm_num) (div_nonneg (time_span_hours_nonneg parse data) (by norm_num))
  have hb2 : min 1 (time_span_hours parse data / 168) ≤ 1 := min_le_left 1 _
  have hc := trend_consistency_bounds kot
  have hd := data_quality_score_bounds data
  have hsum0 : (0:ℚ) ≤ min 1 ((data.length : ℚ) / 50) * (3/10) +
      min 1 (time_span_hours parse data / 168) * (1/5) +
      trend_consistency kot * (3/10) + data_quality_score data * (1/5) := by
    nlinarith [ha1, hb1, hc.1, hd.1]
  have hsum1 : min 1 ((data.length : ℚ) / 50) * (3/10) +
      min 1 (time_span_hours parse data / 168) * (1/5) +
      trend_consistency kot * (3/10) + data_quality_score data * (1/5) ≤ 1 := by
    nlinarith [ha2, hb2, hc.2, hd.2]
  have hb := round2_bounds _ hsum0 hsum1
  exact ⟨hb.1, hb.2, round _, rfl⟩

lemma analyze_trend_direction_strength_bounds (data : List Doc)
    (kot : List (Str × List (ℤ × Nat))) :
    0 ≤ (analyze_trend_direction data kot).2 ∧
    (analyze_trend_direction data kot).2 ≤ 9/10 := by
  unfold analyze_trend_direction
  by_cases h : growth_sum data + decline_sum data = 0
  · simp only [if_pos h]
    norm_num
  · simp only [if_neg h]
    have hg0 : (0:ℚ) ≤ (growth_sum data : ℚ) /
        ((growth_sum data : ℚ) + (decline_sum data : ℚ)) := by
      apply div_nonneg <;> positivity
    have hd0 : (0:ℚ) ≤ (decline_sum data : ℚ) /
        ((growth_sum data : ℚ) + (decline_sum data : ℚ)) := by
      apply div_nonneg <;> positivity
    by_cases h1 : (growth_sum data : ℚ) /
        ((growth_sum data : ℚ) + (decline_sum data : ℚ)) > 3/5
    · simp only [if_pos h1]
      exact ⟨le_min (by norm_num) (by linarith), min_le_left _ _⟩
    · simp only [if_neg h1]
      by_cases h2 : (decline_sum data : ℚ) /
          ((growth_sum data : ℚ) + (decline_sum data : ℚ)) > 3/5
      · simp only [if_pos h2]
        exact ⟨le_min (by norm_num) (by linarith), min_le_left _ _⟩
      · simp only [if_neg h2]
        norm_num

/-- C1: `_analyze_trend_direction` realises exactly the claimed rule with
`decline_ratio = 1 - growth_ratio`; the resulting strength always lies in
[0, 0.9] and `_calculate_trend_confidence` always lies in [0, 1] and is an
integer number of hundredths; both bounds carry over to every
`detect_trends` result. -/
theorem c1_direction_strength_confidence :
    (∀ (data : List Doc) (kot : List (Str × List (ℤ × Nat))),
      analyze_trend_direction data kot =
        (if growth_sum data + decline_sum data = 0 then (Direction.stable, 1/2)
         else
          if (growth_sum data : ℚ) /
              ((growth_sum data : ℚ) + (decline_sum data : ℚ)) > 3/5 then
            (Direction.rising,
             min (9/10) (1/2 + ((growth_sum data : ℚ) /
               ((growth_sum data : ℚ) + (decline_sum data : ℚ)) - 1/2)))
          else
            if 1 - (growth_sum data : ℚ) /
                ((growth_sum data : ℚ) + (decline_sum data : ℚ)) > 3/5 then
              (Direction.declining,
               min (9/10) (1/2 + ((1 - (growth_sum data : ℚ) /
                 ((growth_sum data : ℚ) + (decline_sum data : ℚ))) - 1/2)))
            else (Direction.stable, 1/2))) ∧
    (∀ (data : List Doc) (kot : List (Str × List (ℤ × Nat))),
      0 ≤ (analyze_trend_direction data kot).2 ∧
      (analyze_trend_direction data kot).2 ≤ 9/10) ∧
    (∀ (parse : Str → Option ℤ) (data : List Doc)
        (kot : List (Str × List (ℤ × Nat))),
      0 ≤ calculate_trend_confidence parse data kot ∧
      calculate_trend_confidence parse data kot ≤ 1 ∧
      ∃ z : ℤ, calculate_trend_confidence parse data kot = (z : ℚ) / 100) ∧
    (∀ (parse : Str → Option ℤ) (now : ℤ) (data : List Doc) (query : Str),
      0 ≤ (detect_trends parse now data query).strength ∧
      (detect_trends parse now data query).strength ≤ 9/10 ∧
      0 ≤ (detect_trends parse now data query).confidence ∧
      (detect_trends parse now data query).confidence ≤ 1) := by
  refine ⟨?_, analyze_trend_direction_strength_bounds,
    calculate_trend_confidence_bounds, ?_⟩
  · intro data kot
    unfold analyze_trend_direction
    by_cases h : growth_sum data + decline_sum data = 0
    · simp only [if_pos h]
    · simp only [if_neg h]
      have hne : (growth_sum data : ℚ) + (decline_sum data : ℚ) ≠ 0 := by
        have h2 : ((growth_sum data + decline_sum data : ℕ) : ℚ) ≠ 0 :=
          Nat.cast_ne_zero.mpr h
        push_cast at h2
        exact h2
      have hdr : (decline_sum data : ℚ) /
          ((growth_sum data : ℚ) + (decline_sum data : ℚ)) =
          1 - (growth_sum data : ℚ) /
            ((growth_sum data : ℚ) + (decline_sum data : ℚ)) := by
        field_simp
      rw [hdr]
  · intro parse now data query
    unfold detect_trends
    by_cases hd : data.isEmpty
    · rw [if_pos hd]
      unfold empty_trend_result
      norm_num
    · rw [if_neg hd]
      unfold catch_trend detect_trends_body
      have hs := analyze_trend_direction_strength_bounds data
        (extract_keywords_over_time parse now data)
      have hcf := calculate_trend_confidence_bounds parse data
        (extract_keywords_over_time parse now data)
      exact ⟨hs.1, hs.2, hcf.1, hcf.2.1⟩
